import Mathlib

/-!
Verification of the MATH-AI generation-validation-render pipeline spec
against the repository code.

The repository ships a React frontend (App.jsx, ChatInterface.jsx,
CodeViewer.jsx, services/api.js) together with documentation.  The
definitions below are a shallow embedding of that frontend code; the
backend components that the spec describes (Mode Dispatcher, Code
Validator, Generation-Render Pipeline, Render Orchestrator, Artifact
Store) are not present in the sources, so they are modelled from the
spec where a claim needs them, each such definition marked
"Modelled from the spec:" in its doc comment.

JavaScript conventions used by the embedding: a missing or empty string
field is the falsy case, so optional string fields are embedded as
String with the empty string standing for undefined; the expression
a || b is embedded as jsOr a b.
-/

namespace MathAI

/-- JavaScript a || b on strings: the left operand unless it is falsy
(empty / undefined), in which case the right operand. -/
def jsOr (a b : String) : String :=
  if a = "" then b else a

/-- One chat message as built by App.jsx addMessage.  Fields that the
code leaves undefined are embedded as the empty string; the image
payload is embedded as a flag. -/
structure Message where
  role : String
  text : String := ""
  image : Bool := false
  mathText : String := ""
  videoUrl : String := ""
  error : String := ""
  deriving DecidableEq

/-- Response of animationAPI.generate (services/api.js): backend JSON
with success, message and the generated code. -/
structure GenerateResult where
  success : Bool
  message : String := ""
  code : String := ""
  deriving DecidableEq

/-- Response of animationAPI.render (services/api.js): backend JSON with
success, message and the video url. -/
structure RenderResult where
  success : Bool
  message : String := ""
  video_url : String := ""
  deriving DecidableEq

/-- Response of animationAPI.fromImage (services/api.js): backend JSON
with success, message, extracted math text, video url and render error. -/
structure FromImageResult where
  success : Bool
  message : String := ""
  math_text : String := ""
  video_url : String := ""
  render_error : String := ""
  deriving DecidableEq

/-- Observable result of one App.jsx handleSendMessage invocation: the
messages appended by addMessage in order, the final isLoading value, a
flag recording that the processing toast was dismissed, how many times
each animationAPI method was awaited, and the error text handled by the
catch block when the run threw. -/
structure HandlerRun where
  messages : List Message
  isLoadingFinal : Bool
  processingDismissed : Bool
  generateCalls : Nat
  renderCalls : Nat
  fromImageCalls : Nat
  threw : Option String
  deriving DecidableEq

/-- The user message added at the start of the text branch. -/
def userTextMessage (content : String) : Message :=
  { role := "user", text := content }

/-- The user message added by the FileReader callback in the image
branch (the data url payload is abstracted to a flag). -/
def userImageMessage : Message :=
  { role := "user", image := true }

/-- Assistant message of the text-branch success path (display copy of
App.jsx up to the emoji and a contraction). -/
def successTextMessage (url : String) : Message :=
  { role := "assistant", text := "I have created your animation!", videoUrl := url }

/-- Assistant message of the image-branch success path (display copy of
App.jsx up to the emoji). -/
def imageSuccessMessage (mt url : String) : Message :=
  { role := "assistant",
    text := "I extracted the math content and created an animation!",
    mathText := mt, videoUrl := url }

/-- Assistant message of the image-branch partial-success path: the
extracted math text together with the render error. -/
def fallbackResultMessage (mt err : String) : Message :=
  { role := "assistant",
    text := "I found this math content but rendering failed. You can try again!",
    mathText := mt, error := err }

/-- Assistant message appended by the catch block of handleSendMessage
(display copy up to the emoji), carrying the thrown error text. -/
def errorNoticeMessage (e : String) : Message :=
  { role := "assistant",
    text := "Sorry, I encountered an error. Please try again!",
    error := e }

/-- A handleSendMessage run that reached the end of the try block: the
finally block dismissed the processing toast and reset isLoading. -/
def finishOk (msgs : List Message) (g r i : Nat) : HandlerRun :=
  { messages := msgs, isLoadingFinal := false, processingDismissed := true,
    generateCalls := g, renderCalls := r, fromImageCalls := i, threw := none }

/-- A handleSendMessage run that threw: the catch block dismisses the
processing toast, shows an error toast and appends exactly one
assistant message carrying the error text; the finally block resets
isLoading. -/
def catchErrorRun (msgs : List Message) (e : String) (g r i : Nat) : HandlerRun :=
  { messages := msgs ++ [errorNoticeMessage e], isLoadingFinal := false,
    processingDismissed := true, generateCalls := g, renderCalls := r,
    fromImageCalls := i, threw := some e }

/-- The text branch of App.jsx handleSendMessage: add the user message,
await animationAPI.generate; if it throws or reports failure the run
falls to the catch block; otherwise await animationAPI.render and
either add the success message or throw with the render message. -/
def runTextPath (content : String) (genR : Except String GenerateResult)
    (renR : Except String RenderResult) : HandlerRun :=
  let u := userTextMessage content
  match genR with
  | Except.error e => catchErrorRun [u] e 1 0 0
  | Except.ok g =>
    if g.success then
      match renR with
      | Except.error e => catchErrorRun [u] e 1 1 0
      | Except.ok r =>
        if r.success then
          finishOk [u, successTextMessage r.video_url] 1 1 0
        else
          catchErrorRun [u] (jsOr r.message "Rendering failed") 1 1 0
    else
      catchErrorRun [u] (jsOr g.message "Failed to generate code") 1 0 0

/-- The image branch of App.jsx handleSendMessage: add the user image
message, await animationAPI.fromImage; on success add the full result,
on failure with a truthy math_text add the partial result carrying the
extracted text and the render error, otherwise throw. -/
def runImagePath (imgR : Except String FromImageResult) : HandlerRun :=
  let u := userImageMessage
  match imgR with
  | Except.error e => catchErrorRun [u] e 0 0 1
  | Except.ok result =>
    if result.success then
      finishOk [u, imageSuccessMessage result.math_text result.video_url] 0 0 1
    else if result.math_text ≠ "" then
      finishOk [u, fallbackResultMessage result.math_text
        (jsOr result.render_error result.message)] 0 0 1
    else
      catchErrorRun [u] (jsOr result.message "Processing failed") 0 0 1

/-- The payload handed to handleSendMessage by ChatInterface. -/
inductive SendData where
  | text (content : String)
  | image
  deriving DecidableEq

/-- Environment of one handleSendMessage run: the outcome of each
animationAPI call this run could await (ok value or thrown message). -/
structure ApiEnv where
  genR : Except String GenerateResult
  renR : Except String RenderResult
  imgR : Except String FromImageResult

/-- App.jsx handleSendMessage: dispatch on the payload type. -/
def handleSendMessage : SendData → ApiEnv → HandlerRun
  | SendData.text content, env => runTextPath content env.genR env.renR
  | SendData.image, env => runImagePath env.imgR

/-- JavaScript-style trim used by ChatInterface (whitespace stripped
from both ends), over the character-list embedding of strings. -/
def jsTrim (s : List Char) : List Char :=
  ((s.dropWhile Char.isWhitespace).reverse.dropWhile Char.isWhitespace).reverse

/-- ChatInterface.jsx handleSendText: the message is sent only when the
trimmed input is truthy (nonempty) and the app is not loading. -/
def handleSendText (inputText : List Char) (isLoading : Bool) :
    Option (List Char) :=
  if jsTrim inputText ≠ [] ∧ isLoading = false then some inputText else none

/-- The axios instance of services/api.js, as a record of its
configuration: default base url when VITE_API_URL is unset, and the
single overall request timeout of 300000 ms. -/
structure AxiosConfig where
  baseURL : String
  timeout : Nat
  deriving DecidableEq

/-- services/api.js api := axios.create; the base url falls back to
localhost when the environment variable is absent. -/
def apiConfig (viteApiUrl : Option String) : AxiosConfig :=
  { baseURL := viteApiUrl.getD "http://localhost:8001", timeout := 300000 }

/-- Request body built by animationAPI.generate: math_text and
additional_context only, no mode field. -/
def generateRequestBody (mathText additionalContext : String) :
    List (String × String) :=
  [("math_text", mathText), ("additional_context", additionalContext)]

/-- Request body built by animationAPI.render: code and scene_name. -/
def renderRequestBody (code sceneName : String) : List (String × String) :=
  [("code", code), ("scene_name", sceneName)]

/-- Form data built by animationAPI.smartChat: optional file, optional
text, and always the mode field. -/
def smartChatBody (file text : Option String) (mode : String) :
    List (String × String) :=
  (match file with | some f => [("file", f)] | none => []) ++
  (match text with | some t => [("text", t)] | none => []) ++
  [("mode", mode)]

/-- Default value of the mode parameter of animationAPI.smartChat. -/
def smartChatDefaultMode : String := "auto"

/-! CodeViewer.jsx operates on code.split with the newline separator;
the embedding works over the character-list view of strings, with
splitNl embedding the JavaScript split and joinNl the join. -/

/-- The newline character the JavaScript split uses as separator. -/
def newlineChar : Char := Char.ofNat 10

/-- Helper for splitNl: the first segment of the split together with
the remaining segments. -/
def splitNlAux : List Char → List Char × List (List Char)
  | [] => ([], [])
  | c :: cs =>
    let r := splitNlAux cs
    if c = newlineChar then ([], r.1 :: r.2) else (c :: r.1, r.2)

/-- JavaScript s.split on the newline separator: always returns at
least one segment (the empty string splits to one empty segment). -/
def splitNl (s : List Char) : List (List Char) :=
  (splitNlAux s).1 :: (splitNlAux s).2

/-- JavaScript arr.join on the newline separator. -/
def joinNl : List (List Char) → List Char
  | [] => []
  | [l] => l
  | l :: ls => l ++ newlineChar :: joinNl ls

/-- CodeViewer.jsx truncatedCode: the first 10 lines rejoined. -/
def truncatedCode (code : List Char) : List Char :=
  joinNl ((splitNl code).take 10)

/-- CodeViewer.jsx shouldTruncate: more than 10 lines. -/
def shouldTruncate (code : List Char) : Bool :=
  decide (10 < (splitNl code).length)

/-- The code string CodeViewer passes to the highlighter: the full code
when expanded or when truncation is off, the truncated code otherwise. -/
def displayedCode (code : List Char) (isExpanded : Bool) : List Char :=
  if isExpanded = true ∨ shouldTruncate code = false then code
  else truncatedCode code

/-- Whether the expand button is rendered (guarded by shouldTruncate). -/
def expandButtonShown (code : List Char) : Bool :=
  shouldTruncate code

/-- The count the expand button label reports as remaining lines. -/
def showMoreCount (code : List Char) : Nat :=
  (splitNl code).length - 10

/-! Backend components.  The repository sources contain only the
frontend and documentation; the backend that the spec describes is
modelled from the spec below, definition by definition. -/

/-- Modelled from the spec: the request mode enum of the data model
(section 3); the backend Mode Dispatcher is absent from the sources. -/
inductive Mode where
  | auto | explain | answer | animate
  deriving DecidableEq

/-- Modelled from the spec: the light / heavy path decision of the Mode
Dispatcher (section 4.1); the backend is absent from the sources. -/
inductive PathKind where
  | light | heavy
  deriving DecidableEq

/-- Modelled from the spec: the error taxonomy of section 7; the
backend is absent from the sources. -/
inductive ErrorKind where
  | invalidInput | ocrError | generationError | validationFailure
  | renderTimeout | renderOutputMissing | renderProcessError
  | pipelineExhausted
  deriving DecidableEq

/-- Modelled from the spec: GenerationRequest of the data model
(section 3); the backend is absent from the sources. -/
structure GenerationRequest where
  source_text : String
  context : Option String
  mode : Mode

/-- Modelled from the spec: SceneCode of the data model (section 3);
the backend is absent from the sources. -/
structure SceneCode where
  source : String
  scene_class_name : String
  generated_at : Nat
  attempt_number : Nat

/-- Modelled from the spec: the decide contract of the Mode Dispatcher
(section 4.1), absent from the sources.  Pure function of input text
and mode; fails only on empty input text with InvalidInputError;
animate always takes the heavy path, explain and answer always the
light path, and auto defers to the configurable heuristic classifier. -/
def decideMode (req : GenerationRequest) (classifyHeavy : String → Bool) :
    Except ErrorKind (PathKind × Mode) :=
  if req.source_text = "" then Except.error ErrorKind.invalidInput
  else
    match req.mode with
    | Mode.animate => Except.ok (PathKind.heavy, Mode.animate)
    | Mode.explain => Except.ok (PathKind.light, Mode.explain)
    | Mode.answer => Except.ok (PathKind.light, Mode.answer)
    | Mode.auto =>
      Except.ok
        ((if classifyHeavy req.source_text then PathKind.heavy
          else PathKind.light), Mode.auto)

/-- The collaborators a request run may invoke (section 6). -/
inductive CollabCall where
  | ocr | llm | renderEngine
  deriving DecidableEq

/-- Modelled from the spec: which collaborators each chosen path
invokes (section 2 data flow), absent from the sources. -/
def callsForPath : PathKind → List CollabCall
  | PathKind.light => [CollabCall.llm]
  | PathKind.heavy => [CollabCall.llm, CollabCall.renderEngine]

/-- Modelled from the spec: a request run through the dispatcher,
absent from the sources.  On a dispatch error no path runs, so the
list of collaborator calls made is empty. -/
def runRequest (req : GenerationRequest) (classifyHeavy : String → Bool) :
    Except ErrorKind PathKind × List CollabCall :=
  match decideMode req classifyHeavy with
  | Except.error e => (Except.error e, [])
  | Except.ok p => (Except.ok p.1, callsForPath p.1)

/-- Modelled from the spec: the rule identifiers of the Code Validator
checks (section 4.3), absent from the sources. -/
inductive RuleId where
  | parseCheck | sceneStructureCheck | denylistCheck | lineCountCheck
  deriving DecidableEq

/-- Modelled from the spec: one entry of ValidationResult.violations
(section 3), absent from the sources. -/
structure Violation where
  rule_id : RuleId
  message : String
  deriving DecidableEq

/-- Modelled from the spec: ValidationResult of the data model
(section 3), absent from the sources. -/
structure ValidationResult where
  valid : Bool
  violations : List Violation
  deriving DecidableEq

/-- Modelled from the spec: one configurable validation rule of the
Code Validator (section 4.3), absent from the sources: an identifier,
an acceptance check, and the diagnostic message reported on failure. -/
structure ValidationRule where
  id : RuleId
  check : SceneCode → Bool
  message : String

/-- Modelled from the spec: the validate contract of the Code Validator
(section 4.3), absent from the sources.  All violations are collected,
one entry per failed rule, and valid holds exactly when no rule fails. -/
def validateCode (rules : List ValidationRule) (code : SceneCode) :
    ValidationResult :=
  let vs := (rules.filter (fun r => r.check code = false)).map
    (fun r => { rule_id := r.id, message := r.message })
  { valid := vs.isEmpty, violations := vs }

/-- Modelled from the spec: the observable behaviour of one pipeline
attempt (sections 4.5 and 8), absent from the sources — the durations
the generation step and the render step actually took, whether the
generated code validated, and whether the render succeeded. -/
structure AttemptBehavior where
  genDuration : Nat
  renderDuration : Nat
  valid : Bool
  renderOk : Bool

/-- Modelled from the spec: the observable summary of one pipeline run
(sections 4.5 and 8), absent from the sources — elapsed time, attempts
consumed and overall success. -/
structure PipelineRun where
  elapsed : Nat
  attempts_used : Nat
  success : Bool
  deriving DecidableEq

/-- Modelled from the spec: the time one attempt spends (sections 4.5
and 8), absent from the sources — the generation duration plus, only
when the code validated and was handed to the renderer, the render
duration. -/
def attemptTime (a : AttemptBehavior) : Nat :=
  a.genDuration + (if a.valid then a.renderDuration else 0)

/-- Modelled from the spec: the bounded retry loop of the
Generation-Render Pipeline (section 4.5), absent from the sources.
One shared attempt budget (the fuel) covers validation failures and
render failures alike; each attempt spends its attempt time, and the
loop stops at the first render success or when the budget is
exhausted. -/
def runHeavyPipelineAux (env : Nat → AttemptBehavior) :
    Nat → Nat → PipelineRun
  | 0, used => { elapsed := 0, attempts_used := used, success := false }
  | Nat.succ fuel, used =>
    if (env used).valid = true ∧ (env used).renderOk = true then
      { elapsed := attemptTime (env used), attempts_used := used + 1,
        success := true }
    else
      { elapsed := attemptTime (env used) +
          (runHeavyPipelineAux env fuel (used + 1)).elapsed,
        attempts_used := (runHeavyPipelineAux env fuel (used + 1)).attempts_used,
        success := (runHeavyPipelineAux env fuel (used + 1)).success }

/-- Modelled from the spec: runHeavyPipeline (section 6) driving the
retry loop from attempt zero with the full budget, absent from the
sources. -/
def runHeavyPipeline (env : Nat → AttemptBehavior) (maxAttempts : Nat) :
    PipelineRun :=
  runHeavyPipelineAux env maxAttempts 0

/-- Modelled from the spec: Artifact of the data model (section 3),
absent from the sources — opaque id, managed file path, creation time. -/
structure Artifact where
  id : Nat
  file_path : String
  created_at : Nat
  deriving DecidableEq

/-- Modelled from the spec: PipelineOutcome of the data model
(section 3), absent from the sources; artifact and error are both
optional and may coexist (section 7 partial success). -/
structure PipelineOutcome where
  success : Bool
  artifact : Option Artifact
  final_code : Option SceneCode
  error : Option ErrorKind
  attempts_used : Nat

/-- Modelled from the spec: the Artifact Store state (section 4.6),
absent from the sources — the managed artifacts and the next fresh id. -/
structure StoreState where
  artifacts : List Artifact
  nextId : Nat

/-- Modelled from the spec: the managed location the store assigns to
an artifact id (artifacts are referenced by id, never by raw temp
path), absent from the sources. -/
def managedPath (id : Nat) : String :=
  "managed/" ++ toString id

/-- Modelled from the spec: store of the Artifact Store (section 4.6),
absent from the sources — moves the temp file into managed storage,
assigns an opaque fresh id, records creation time. -/
def storeArtifact (st : StoreState) (tempFilePath : String) (now : Nat) :
    StoreState × Artifact :=
  let a : Artifact :=
    { id := st.nextId, file_path := managedPath st.nextId, created_at := now }
  ({ artifacts := a :: st.artifacts, nextId := st.nextId + 1 }, a)

/-- Modelled from the spec: resolve of the Artifact Store (section
4.6), absent from the sources — the managed file path of the id, or
none for NotFound. -/
def resolveArtifact (st : StoreState) (id : Nat) : Option String :=
  (st.artifacts.find? (fun a => a.id == id)).map Artifact.file_path

/-- Modelled from the spec: sweep of the Artifact Store (section 4.6),
absent from the sources — deletes every artifact strictly older than
maxAge at the sweep time, keeps the rest. -/
def sweepArtifacts (st : StoreState) (maxAge now : Nat) : StoreState :=
  { st with artifacts :=
      st.artifacts.filter (fun a => decide (now - a.created_at ≤ maxAge)) }

/-- The store operations that can run after an artifact is stored. -/
inductive StoreOp where
  | storeOp (tempFilePath : String) (now : Nat)
  | sweepOp (maxAge : Nat) (now : Nat)
  deriving DecidableEq

/-- Apply one store operation to the store state. -/
def applyStoreOp (st : StoreState) : StoreOp → StoreState
  | StoreOp.storeOp p now => (storeArtifact st p now).1
  | StoreOp.sweepOp ma now => sweepArtifacts st ma now

/-- Apply a sequence of store operations in order. -/
def applyStoreOps (st : StoreState) (ops : List StoreOp) : StoreState :=
  ops.foldl applyStoreOp st

/-- Well-formedness of the store state: every managed id is below the
fresh-id counter and ids are pairwise distinct. -/
def StoreWF (st : StoreState) : Prop :=
  (∀ a ∈ st.artifacts, a.id < st.nextId) ∧
  st.artifacts.Pairwise (fun a b => a.id ≠ b.id)

/-- An operation keeps a given artifact: stores always do, and a sweep
does exactly when the artifact has not outlived the given max age at
the sweep time. -/
def opKeeps (a : Artifact) : StoreOp → Prop
  | StoreOp.storeOp _ _ => True
  | StoreOp.sweepOp ma now => now - a.created_at ≤ ma

/-! Render Orchestrator (section 4.4), absent from the sources.  The
model records the side-effect trace of one render attempt: the scoped
working-directory resource is opened first and removed last on every
exit path, and a produced artifact is relocated into the managed store
location before the removal. -/

/-- Modelled from the spec: the RenderJob status enum of the data model
(section 3), absent from the sources. -/
inductive JobStatus where
  | pending | running | succeeded | failed | timed_out
  deriving DecidableEq

/-- Modelled from the spec: the ways the external render process can
exit (section 4.4), absent from the sources — success with or without
the expected output file, non-zero exit with captured stderr, timeout,
or crash of the invocation itself. -/
inductive RenderExit where
  | finished (outputPresent : Bool)
  | nonzeroExit (stderr : String)
  | timedOut
  | crashed
  deriving DecidableEq

/-- The filesystem side effects of one render attempt, in order. -/
inductive RenderEvent where
  | createWorkingDir
  | writeCodeFile
  | invokeRenderer
  | relocateArtifact (target : String)
  | removeWorkingDir
  deriving DecidableEq

/-- Modelled from the spec: the outcome of one Render Orchestrator
attempt (section 4.4), absent from the sources — terminal job status,
retry-feedback error, the managed location of the artifact if one was
produced, and the ordered side-effect trace. -/
structure RenderJobResult where
  status : JobStatus
  errorKind : Option ErrorKind
  artifactTarget : Option String
  events : List RenderEvent

/-- Modelled from the spec: the body of one render attempt before
cleanup (section 4.4), absent from the sources — what each exit path
contributes between renderer invocation and directory removal. -/
def renderBodyOutcome (artifactId : Nat) :
    RenderExit → List RenderEvent × JobStatus × Option ErrorKind × Option String
  | RenderExit.finished true =>
    ([RenderEvent.relocateArtifact (managedPath artifactId)],
      JobStatus.succeeded, none, some (managedPath artifactId))
  | RenderExit.finished false =>
    ([], JobStatus.failed, some ErrorKind.renderOutputMissing, none)
  | RenderExit.nonzeroExit _ =>
    ([], JobStatus.failed, some ErrorKind.renderProcessError, none)
  | RenderExit.timedOut =>
    ([], JobStatus.timed_out, some ErrorKind.renderTimeout, none)
  | RenderExit.crashed =>
    ([], JobStatus.failed, some ErrorKind.renderProcessError, none)

/-- Modelled from the spec: the render contract of the Render
Orchestrator wrapped in the scoped working-directory resource
(sections 4.4 and 9), absent from the sources — the directory is
created, the code written and the renderer invoked, the exit path
contributes its outcome, and the directory removal is appended
unconditionally, after any relocation. -/
def renderScene (artifactId : Nat) (exit : RenderExit) : RenderJobResult :=
  let body := renderBodyOutcome artifactId exit
  { status := body.2.1,
    errorKind := body.2.2.1,
    artifactTarget := body.2.2.2,
    events :=
      [RenderEvent.createWorkingDir, RenderEvent.writeCodeFile,
        RenderEvent.invokeRenderer] ++ body.1 ++ [RenderEvent.removeWorkingDir] }

/-! Lemmas about the newline split and join of CodeViewer. -/

/-- No segment produced by the split contains the separator. -/
theorem splitNlAux_no_newline (s : List Char) :
    newlineChar ∉ (splitNlAux s).1 ∧
      ∀ l ∈ (splitNlAux s).2, newlineChar ∉ l := by
  induction s with
  | nil => simp [splitNlAux]
  | cons c cs ih =>
    by_cases h : c = newlineChar
    · simpa [splitNlAux, h] using ⟨ih.1, ih.2⟩
    · refine ⟨?_, ?_⟩
      · simp only [splitNlAux, h, if_false, List.mem_cons]
        rintro (rfl | hm)
        · exact h rfl
        · exact ih.1 hm
      · simpa [splitNlAux, h] using ih.2

/-- No segment of splitNl contains a newline. -/
theorem no_newline_of_mem_splitNl (s : List Char) :
    ∀ l ∈ splitNl s, newlineChar ∉ l := by
  intro l hl
  rcases List.mem_cons.mp hl with h | h
  · exact h ▸ (splitNlAux_no_newline s).1
  · exact (splitNlAux_no_newline s).2 l h

/-- Splitting a newline-free string yields the single segment. -/
theorem splitNlAux_of_no_newline (l : List Char) (h : newlineChar ∉ l) :
    splitNlAux l = (l, []) := by
  induction l with
  | nil => rfl
  | cons c cs ih =>
    have hc : c ≠ newlineChar := fun e => h (e ▸ List.mem_cons_self c cs)
    have hcs : newlineChar ∉ cs := fun hm => h (List.mem_cons_of_mem c hm)
    simp [splitNlAux, hc, ih hcs]

/-- Splitting after appending a newline and a tail first yields the
newline-free head segment, then the split of the tail. -/
theorem splitNlAux_append_newline (l t : List Char) (h : newlineChar ∉ l) :
    splitNlAux (l ++ newlineChar :: t) = (l, splitNl t) := by
  induction l with
  | nil => simp [splitNlAux, splitNl]
  | cons c cs ih =>
    have hc : c ≠ newlineChar := fun e => h (e ▸ List.mem_cons_self c cs)
    have hcs : newlineChar ∉ cs := fun hm => h (List.mem_cons_of_mem c hm)
    simp [splitNlAux, hc, ih hcs]

/-- Joining newline-free segments and splitting again is the identity
on nonempty segment lists. -/
theorem splitNl_joinNl (ls : List (List Char)) (hne : ls ≠ [])
    (h : ∀ l ∈ ls, newlineChar ∉ l) : splitNl (joinNl ls) = ls := by
  induction ls with
  | nil => exact absurd rfl hne
  | cons a ls ih =>
    cases ls with
    | nil =>
      have ha : newlineChar ∉ a := h a (List.mem_cons_self a [])
      simp [joinNl, splitNl, splitNlAux_of_no_newline a ha]
    | cons b ls2 =>
      have ha : newlineChar ∉ a := h a (List.mem_cons_self a _)
      have hrest : ∀ l ∈ b :: ls2, newlineChar ∉ l :=
        fun l hl => h l (List.mem_cons_of_mem a hl)
      have hj : joinNl (a :: b :: ls2) = a ++ newlineChar :: joinNl (b :: ls2) :=
        rfl
      rw [hj]
      have := splitNlAux_append_newline a (joinNl (b :: ls2)) ha
      simp only [splitNl, this]
      exact congrArg (List.cons a) (ih (by simp) hrest)

/-! Lemmas about the Artifact Store model. -/

instance instDecidableOpKeeps (a : Artifact) :
    (op : StoreOp) → Decidable (opKeeps a op)
  | StoreOp.storeOp _ _ => isTrue trivial
  | StoreOp.sweepOp ma now =>
    inferInstanceAs (Decidable (now - a.created_at ≤ ma))

/-- In a list with pairwise distinct ids, searching for the id of a
member finds exactly that member. -/
theorem find_of_mem_distinct (l : List Artifact) (a : Artifact)
    (ha : a ∈ l) (hnd : l.Pairwise (fun x y => x.id ≠ y.id)) :
    l.find? (fun b => b.id == a.id) = some a := by
  induction l with
  | nil => cases ha
  | cons b l ih =>
    rcases List.mem_cons.mp ha with rfl | hm
    · rw [List.find?_cons_of_pos _ (by simp)]
    · have hb : b.id ≠ a.id := (List.pairwise_cons.mp hnd).1 a hm
      rw [List.find?_cons_of_neg _ (by simp [hb])]
      exact ih hm (List.pairwise_cons.mp hnd).2

/-- A member of a well-formed store resolves to its managed path. -/
theorem resolve_of_mem (st : StoreState) (a : Artifact)
    (hwf : StoreWF st) (ha : a ∈ st.artifacts) :
    resolveArtifact st a.id = some a.file_path := by
  unfold resolveArtifact
  rw [find_of_mem_distinct st.artifacts a ha hwf.2]
  rfl

/-- One store operation that keeps an artifact preserves the store
invariant and the membership of that artifact. -/
theorem applyStoreOp_preserves (st : StoreState) (a : Artifact)
    (op : StoreOp) (hwf : StoreWF st) (ha : a ∈ st.artifacts)
    (hk : opKeeps a op) :
    StoreWF (applyStoreOp st op) ∧ a ∈ (applyStoreOp st op).artifacts := by
  cases op with
  | storeOp p now =>
    refine ⟨⟨?_, ?_⟩, ?_⟩
    · intro b hb
      rcases List.mem_cons.mp hb with rfl | hm
      · exact Nat.lt_succ_self _
      · exact Nat.lt_succ_of_lt (hwf.1 b hm)
    · refine List.pairwise_cons.mpr ⟨?_, hwf.2⟩
      intro b hb
      exact fun e => absurd (e ▸ hwf.1 b hb) (Nat.lt_irrefl _)
    · exact List.mem_cons_of_mem _ ha
  | sweepOp ma now =>
    have hsub : (applyStoreOp st (StoreOp.sweepOp ma now)).artifacts.Sublist
        st.artifacts := List.filter_sublist st.artifacts
    refine ⟨⟨?_, hwf.2.sublist hsub⟩, ?_⟩
    · intro b hb
      exact hwf.1 b (hsub.mem hb)
    · exact List.mem_filter.mpr ⟨ha, decide_eq_true hk⟩

/-- After any sequence of operations each of which keeps the artifact,
the artifact is still a member of a well-formed store. -/
theorem applyStoreOps_preserves (ops : List StoreOp) (st : StoreState)
    (a : Artifact) (hwf : StoreWF st) (ha : a ∈ st.artifacts)
    (hk : ∀ op ∈ ops, opKeeps a op) :
    StoreWF (applyStoreOps st ops) ∧ a ∈ (applyStoreOps st ops).artifacts := by
  induction ops generalizing st with
  | nil => exact ⟨hwf, ha⟩
  | cons op ops ih =>
    have step := applyStoreOp_preserves st a op hwf ha
      (hk op (List.mem_cons_self op ops))
    exact ih (applyStoreOp st op) step.1 step.2
      (fun o ho => hk o (List.mem_cons_of_mem op ho))

/-- Storing preserves the store invariant, and the returned artifact is
a member of the new state. -/
theorem storeArtifact_preserves (st : StoreState) (p : String) (now : Nat)
    (hwf : StoreWF st) :
    StoreWF (storeArtifact st p now).1 ∧
      (storeArtifact st p now).2 ∈ (storeArtifact st p now).1.artifacts := by
  refine ⟨⟨?_, ?_⟩, List.mem_cons_self _ _⟩
  · intro b hb
    rcases List.mem_cons.mp hb with rfl | hm
    · exact Nat.lt_succ_self _
    · exact Nat.lt_succ_of_lt (hwf.1 b hm)
  · refine List.pairwise_cons.mpr ⟨?_, hwf.2⟩
    intro b hb
    exact fun e => absurd (e ▸ hwf.1 b hb) (Nat.lt_irrefl _)

/-! Lemmas about the pipeline retry loop. -/

/-- The retry loop never uses more attempts than the remaining budget
added to the attempts already counted. -/
theorem runHeavyPipelineAux_attempts_le (env : Nat → AttemptBehavior) :
    ∀ fuel used,
      (runHeavyPipelineAux env fuel used).attempts_used ≤ used + fuel := by
  intro fuel
  induction fuel with
  | zero => intro used; simp [runHeavyPipelineAux]
  | succ fuel ih =>
    intro used
    rw [runHeavyPipelineAux]
    split
    · exact Nat.add_le_add_left (Nat.le_add_left 1 fuel) used
    · have h := ih (used + 1)
      calc (runHeavyPipelineAux env fuel (used + 1)).attempts_used
          ≤ used + 1 + fuel := h
        _ = used + (fuel + 1) := by omega

/-- One attempt spends at most the generation timeout plus the render
timeout when each stage respects its timeout. -/
theorem attemptTime_le (a : AttemptBehavior) (genT renT : Nat)
    (hg : a.genDuration ≤ genT) (hr : a.renderDuration ≤ renT) :
    attemptTime a ≤ genT + renT := by
  unfold attemptTime
  split
  · exact Nat.add_le_add hg hr
  · simp only [Nat.add_zero]
    exact Nat.le_trans hg (Nat.le_add_right genT renT)

/-- The retry loop finishes within the remaining budget times the
per-attempt bound when every stage respects its timeout. -/
theorem runHeavyPipelineAux_elapsed_le (env : Nat → AttemptBehavior)
    (genT renT : Nat)
    (h : ∀ i, (env i).genDuration ≤ genT ∧ (env i).renderDuration ≤ renT) :
    ∀ fuel used,
      (runHeavyPipelineAux env fuel used).elapsed ≤ fuel * (genT + renT) := by
  intro fuel
  induction fuel with
  | zero => intro used; simp [runHeavyPipelineAux]
  | succ fuel ih =>
    intro used
    have ht : attemptTime (env used) ≤ genT + renT :=
      attemptTime_le (env used) genT renT (h used).1 (h used).2
    rw [runHeavyPipelineAux]
    split
    · calc attemptTime (env used) ≤ genT + renT := ht
        _ ≤ (fuel + 1) * (genT + renT) := by
          simpa using Nat.le_mul_of_pos_left (genT + renT) (Nat.succ_pos fuel)
    · have hrest := ih (used + 1)
      calc attemptTime (env used) +
            (runHeavyPipelineAux env fuel (used + 1)).elapsed
          ≤ (genT + renT) + fuel * (genT + renT) := Nat.add_le_add ht hrest
        _ = (fuel + 1) * (genT + renT) := by ring

/-! Claim theorems. -/

/-- C9: every invocation of handleSendMessage, whether the request
succeeds or any awaited step throws, terminates with isLoading reset to
false and the processing toast dismissed, and on every thrown error the
assistant messages appended are exactly the one error-notice message
carrying the thrown error text. -/
theorem handler_cleanup_and_error_surfaced (data : SendData) (env : ApiEnv) :
    (handleSendMessage data env).isLoadingFinal = false ∧
    (handleSendMessage data env).processingDismissed = true ∧
    ∀ e, (handleSendMessage data env).threw = some e →
      (handleSendMessage data env).messages.filter
          (fun m => m.role == "assistant") = [errorNoticeMessage e] := by
  obtain ⟨genR, renR, imgR⟩ := env
  cases data with
  | text content =>
    cases genR with
    | error e =>
      simp [handleSendMessage, runTextPath, catchErrorRun, finishOk,
        userTextMessage, errorNoticeMessage, List.filter]
    | ok g =>
      by_cases hg : g.success
      · cases renR with
        | error e =>
          simp [handleSendMessage, runTextPath, hg, catchErrorRun, finishOk,
            userTextMessage, errorNoticeMessage, List.filter]
        | ok r =>
          by_cases hr : r.success
          · simp [handleSendMessage, runTextPath, hg, hr, catchErrorRun,
              finishOk, userTextMessage, successTextMessage, List.filter]
          · simp [handleSendMessage, runTextPath, hg, hr, catchErrorRun,
              finishOk, userTextMessage, errorNoticeMessage, List.filter]
      · simp [handleSendMessage, runTextPath, hg, catchErrorRun, finishOk,
          userTextMessage, errorNoticeMessage, List.filter]
  | image =>
    cases imgR with
    | error e =>
      simp [handleSendMessage, runImagePath, catchErrorRun, finishOk,
        userImageMessage, errorNoticeMessage, List.filter]
    | ok result =>
      by_cases hs : result.success
      · simp [handleSendMessage, runImagePath, hs, finishOk,
          userImageMessage, imageSuccessMessage, List.filter]
      · by_cases hmt : result.math_text = ""
        · simp [handleSendMessage, runImagePath, hs, hmt, catchErrorRun,
            finishOk, userImageMessage, errorNoticeMessage, List.filter]
        · simp [handleSendMessage, runImagePath, hs, hmt, finishOk,
            userImageMessage, fallbackResultMessage, List.filter]

/-- Witness for C9 at a concrete throwing run. -/
theorem handler_cleanup_and_error_surfaced_witness :
    (handleSendMessage (SendData.text "hi")
      { genR := Except.error "boom",
        renR := Except.ok { success := true },
        imgR := Except.ok { success := true } }).isLoadingFinal = false ∧
    (handleSendMessage (SendData.text "hi")
      { genR := Except.error "boom",
        renR := Except.ok { success := true },
        imgR := Except.ok { success := true } }).messages.filter
        (fun m => m.role == "assistant") = [errorNoticeMessage "boom"] :=
  ⟨(handler_cleanup_and_error_surfaced (SendData.text "hi")
      { genR := Except.error "boom",
        renR := Except.ok { success := true },
        imgR := Except.ok { success := true } }).1,
    (handler_cleanup_and_error_surfaced (SendData.text "hi")
      { genR := Except.error "boom",
        renR := Except.ok { success := true },
        imgR := Except.ok { success := true } }).2.2 "boom" (by decide)⟩

/-- C1: for every SceneCode that fails a validation rule, validate
reports a violation whose rule identifier is that rule and marks the
result invalid, and in the caller present in the repository the render
call is made only when the generate call returned a result with
success true. -/
theorem validator_reports_rule_and_render_gated :
    (∀ (rules : List ValidationRule) (code : SceneCode)
        (r : ValidationRule), r ∈ rules → r.check code = false →
        (validateCode rules code).valid = false ∧
        ∃ v ∈ (validateCode rules code).violations, v.rule_id = r.id) ∧
    (∀ (data : SendData) (env : ApiEnv),
        (handleSendMessage data env).renderCalls ≠ 0 →
        ∃ g, env.genR = Except.ok g ∧ g.success = true) := by
  constructor
  · intro rules code r hr hfail
    have hmemf : r ∈ rules.filter (fun r => r.check code = false) :=
      List.mem_filter.mpr ⟨hr, by simp [hfail]⟩
    have hmemv : ({ rule_id := r.id, message := r.message } : Violation) ∈
        (validateCode rules code).violations :=
      List.mem_map.mpr ⟨r, hmemf, rfl⟩
    refine ⟨?_, ⟨_, hmemv, rfl⟩⟩
    have hne : (validateCode rules code).violations ≠ [] :=
      List.ne_nil_of_mem hmemv
    show ((rules.filter (fun r => r.check code = false)).map
      (fun r => ({ rule_id := r.id, message := r.message } : Violation))).isEmpty = false
    cases hcase : (rules.filter (fun r => r.check code = false)).map
        (fun r => ({ rule_id := r.id, message := r.message } : Violation)) with
    | nil => exact absurd hcase hne
    | cons v vs => rfl
  · intro data env hcall
    obtain ⟨genR, renR, imgR⟩ := env
    cases data with
    | text content =>
      cases genR with
      | error e =>
        simp [handleSendMessage, runTextPath, catchErrorRun] at hcall
      | ok g =>
        by_cases hg : g.success
        · exact ⟨g, rfl, hg⟩
        · simp [handleSendMessage, runTextPath, hg, catchErrorRun] at hcall
    | image =>
      cases imgR with
      | error e =>
        simp [handleSendMessage, runImagePath, catchErrorRun] at hcall
      | ok result =>
        by_cases hs : result.success
        · simp [handleSendMessage, runImagePath, hs, finishOk] at hcall
        · by_cases hmt : result.math_text = ""
          · simp [handleSendMessage, runImagePath, hs, hmt,
              catchErrorRun] at hcall
          · simp [handleSendMessage, runImagePath, hs, hmt,
              finishOk] at hcall

/-- Witness for C1 at a concrete failing rule and a concrete run whose
render call was made. -/
theorem validator_reports_rule_and_render_gated_witness :
    ((validateCode
        [{ id := RuleId.lineCountCheck,
           check := fun c => decide (c.attempt_number ≤ 1),
           message := "line count over the ceiling" }]
        { source := "class S", scene_class_name := "S", generated_at := 0,
          attempt_number := 5 }).valid = false ∧
      ∃ v ∈ (validateCode
        [{ id := RuleId.lineCountCheck,
           check := fun c => decide (c.attempt_number ≤ 1),
           message := "line count over the ceiling" }]
        { source := "class S", scene_class_name := "S", generated_at := 0,
          attempt_number := 5 }).violations,
        v.rule_id = RuleId.lineCountCheck) ∧
    ∃ g, (Except.ok { success := true, code := "c" } :
        Except String GenerateResult) = Except.ok g ∧ g.success = true :=
  ⟨validator_reports_rule_and_render_gated.1
      [{ id := RuleId.lineCountCheck,
         check := fun c => decide (c.attempt_number ≤ 1),
         message := "line count over the ceiling" }]
      { source := "class S", scene_class_name := "S", generated_at := 0,
        attempt_number := 5 }
      { id := RuleId.lineCountCheck,
        check := fun c => decide (c.attempt_number ≤ 1),
        message := "line count over the ceiling" }
      (List.mem_singleton.mpr rfl) (by decide),
    validator_reports_rule_and_render_gated.2 (SendData.text "x")
      { genR := Except.ok { success := true, code := "c" },
        renR := Except.ok { success := true },
        imgR := Except.ok { success := true } } (by decide)⟩

/-- C2 counterexample: on a run whose generate call reports failure the
driver makes zero render attempts, so handleSendMessage does not
perform exactly one render attempt on every request. -/
theorem attempt_budget_counterexample :
    ¬ ((handleSendMessage (SendData.text "x")
        { genR := Except.ok { success := false },
          renR := Except.ok { success := true },
          imgR := Except.ok { success := true } }).renderCalls = 1) := by
  decide

/-- C2 as amended: the pipeline consumes at most the single shared
attempt ceiling, so it never retries indefinitely; the driver
handleSendMessage performs exactly one generate attempt and at most one
render attempt (exactly one when generation succeeds), with no retry
loop. -/
theorem attempt_budget_and_driver_no_retry :
    (∀ (env : Nat → AttemptBehavior) (maxAttempts : Nat),
        (runHeavyPipeline env maxAttempts).attempts_used ≤ maxAttempts) ∧
    (∀ (content : String) (env : ApiEnv),
        (handleSendMessage (SendData.text content) env).generateCalls = 1 ∧
        (handleSendMessage (SendData.text content) env).renderCalls ≤ 1 ∧
        ∀ g, env.genR = Except.ok g → g.success = true →
          (handleSendMessage (SendData.text content) env).renderCalls = 1) := by
  constructor
  · intro env maxAttempts
    simpa using runHeavyPipelineAux_attempts_le env maxAttempts 0
  · intro content env
    obtain ⟨genR, renR, imgR⟩ := env
    cases genR with
    | error e =>
      refine ⟨rfl, ?_, ?_⟩
      · simp [handleSendMessage, runTextPath, catchErrorRun]
      · intro g hg
        exact absurd hg (by simp)
    | ok g0 =>
      by_cases hg0 : g0.success
      · cases renR with
        | error e =>
          refine ⟨?_, ?_, ?_⟩
          · simp [handleSendMessage, runTextPath, hg0, catchErrorRun]
          · simp [handleSendMessage, runTextPath, hg0, catchErrorRun]
          · intro g hg hs
            simp [handleSendMessage, runTextPath, hg0, catchErrorRun]
        | ok r =>
          by_cases hr : r.success
          · refine ⟨?_, ?_, ?_⟩
            · simp [handleSendMessage, runTextPath, hg0, hr, finishOk]
            · simp [handleSendMessage, runTextPath, hg0, hr, finishOk]
            · intro g hg hs
              simp [handleSendMessage, runTextPath, hg0, hr, finishOk]
          · refine ⟨?_, ?_, ?_⟩
            · simp [handleSendMessage, runTextPath, hg0, hr, catchErrorRun]
            · simp [handleSendMessage, runTextPath, hg0, hr, catchErrorRun]
            · intro g hg hs
              simp [handleSendMessage, runTextPath, hg0, hr, catchErrorRun]
      · refine ⟨?_, ?_, ?_⟩
        · simp [handleSendMessage, runTextPath, hg0, catchErrorRun]
        · simp [handleSendMessage, runTextPath, hg0, catchErrorRun]
        · intro g hg hs
          cases Except.ok.inj hg
          exact absurd hs (by simp [hg0])

/-- Witness for C2 as amended at a concrete ceiling and a concrete run
whose generation succeeded. -/
theorem attempt_budget_and_driver_no_retry_witness :
    (runHeavyPipeline
        (fun _ => { genDuration := 1, renderDuration := 1,
                    valid := false, renderOk := false }) 3).attempts_used ≤ 3 ∧
    (handleSendMessage (SendData.text "x")
      { genR := Except.ok { success := true, code := "c" },
        renR := Except.ok { success := true },
        imgR := Except.ok { success := true } }).renderCalls = 1 :=
  ⟨attempt_budget_and_driver_no_retry.1
      (fun _ => { genDuration := 1, renderDuration := 1,
                  valid := false, renderOk := false }) 3,
    (attempt_budget_and_driver_no_retry.2 "x"
      { genR := Except.ok { success := true, code := "c" },
        renR := Except.ok { success := true },
        imgR := Except.ok { success := true } }).2.2
      { success := true, code := "c" } rfl rfl⟩

/-- C4: when the image pipeline fails after extracting math text, the
caller is shown the best result available and not a bare error — the
run does not throw, and the assistant message appended carries both the
extracted math text and the render error (the backend message when no
render error is present); and the spec PipelineOutcome can represent an
artifact and an error coexisting. -/
theorem render_failure_best_result_surfaced (result : FromImageResult)
    (hfail : result.success = false) (hmt : result.math_text ≠ "") :
    (runImagePath (Except.ok result)).threw = none ∧
    (runImagePath (Except.ok result)).messages.filter
        (fun m => m.role == "assistant")
      = [fallbackResultMessage result.math_text
          (jsOr result.render_error result.message)] ∧
    (fallbackResultMessage result.math_text
        (jsOr result.render_error result.message)).mathText
      = result.math_text ∧
    (fallbackResultMessage result.math_text
        (jsOr result.render_error result.message)).error
      = jsOr result.render_error result.message ∧
    ∃ o : PipelineOutcome, o.artifact.isSome ∧ o.error.isSome := by
  refine ⟨?_, ?_, rfl, rfl, ?_⟩
  · simp [runImagePath, hfail, hmt, finishOk]
  · simp [runImagePath, hfail, hmt, finishOk, userImageMessage,
      fallbackResultMessage, List.filter]
  · exact ⟨⟨false, some ⟨0, managedPath 0, 0⟩, none,
      some ErrorKind.pipelineExhausted, 3⟩, rfl, rfl⟩

/-- C3: for every well-formed input, the heavy pipeline terminates
within the attempt ceiling times the sum of the per-stage timeouts
whenever each stage respects its timeout; and the client enforces a
single overall 300000 ms axios timeout per request. -/
theorem pipeline_bounded_time_and_client_timeout :
    (∀ (env : Nat → AttemptBehavior) (maxAttempts genT renT : Nat),
        (∀ i, (env i).genDuration ≤ genT ∧ (env i).renderDuration ≤ renT) →
        (runHeavyPipeline env maxAttempts).elapsed
          ≤ maxAttempts * (genT + renT)) ∧
    (∀ v, (apiConfig v).timeout = 300000) := by
  constructor
  · intro env maxAttempts genT renT h
    exact runHeavyPipelineAux_elapsed_le env genT renT h maxAttempts 0
  · intro v
    rfl

/-- Witness for C3 at a concrete attempt environment and no configured
base url override. -/
theorem pipeline_bounded_time_and_client_timeout_witness :
    (runHeavyPipeline
        (fun _ => { genDuration := 2, renderDuration := 3,
                    valid := true, renderOk := false }) 3).elapsed
      ≤ 3 * (5 + 7) ∧
    (apiConfig none).timeout = 300000 :=
  ⟨pipeline_bounded_time_and_client_timeout.1
      (fun _ => { genDuration := 2, renderDuration := 3,
                  valid := true, renderOk := false }) 3 5 7
      (fun _ => ⟨by norm_num, by norm_num⟩),
    pipeline_bounded_time_and_client_timeout.2 none⟩

/-- C5: a request with empty input text fails with InvalidInputError
before any collaborator is called, and this is the only dispatcher
failure; and the frontend handleSendText refuses to send any message
whose trimmed input text is empty. -/
theorem empty_input_rejected_before_collaborators :
    (∀ (req : GenerationRequest) (classifyHeavy : String → Bool),
        req.source_text = "" →
        runRequest req classifyHeavy
          = (Except.error ErrorKind.invalidInput, [])) ∧
    (∀ (req : GenerationRequest) (classifyHeavy : String → Bool)
        (e : ErrorKind),
        decideMode req classifyHeavy = Except.error e →
        e = ErrorKind.invalidInput ∧ req.source_text = "") ∧
    (∀ (input : List Char) (isLoading : Bool),
        jsTrim input = [] → handleSendText input isLoading = none) := by
  refine ⟨?_, ?_, ?_⟩
  · intro req classifyHeavy h
    simp [runRequest, decideMode, h]
  · intro req classifyHeavy e h
    by_cases hs : req.source_text = ""
    · simp only [decideMode, hs, if_true, Except.error.injEq] at h
      exact ⟨h.symm, hs⟩
    · cases hm : req.mode <;> simp [decideMode, hs, hm] at h
  · intro input isLoading h
    simp [handleSendText, h]

/-- Witness for C5 at an empty request and a whitespace-only input. -/
theorem empty_input_rejected_before_collaborators_witness :
    runRequest { source_text := "", context := none, mode := Mode.animate }
        (fun _ => true) = (Except.error ErrorKind.invalidInput, []) ∧
    handleSendText "   ".toList false = none :=
  ⟨empty_input_rejected_before_collaborators.1
      { source_text := "", context := none, mode := Mode.animate }
      (fun _ => true) rfl,
    empty_input_rejected_before_collaborators.2.2 "   ".toList false
      (by decide)⟩

/-- C6: for explain and answer requests the dispatcher always chooses
the light path and the render engine is never invoked, regardless of
input content; in the repository the mode field is carried only by the
smartChat client call (defaulting to auto), while the text-input flow
of the App always makes the heavy generate call, with no mode field in
the generate request body and no mode dispatch. -/
theorem explain_answer_always_light_path :
    (∀ (req : GenerationRequest) (classifyHeavy : String → Bool)
        (p : PathKind) (m : Mode),
        (req.mode = Mode.explain ∨ req.mode = Mode.answer) →
        decideMode req classifyHeavy = Except.ok (p, m) →
        p = PathKind.light) ∧
    (∀ (req : GenerationRequest) (classifyHeavy : String → Bool),
        (req.mode = Mode.explain ∨ req.mode = Mode.answer) →
        CollabCall.renderEngine ∉ (runRequest req classifyHeavy).2) ∧
    smartChatDefaultMode = "auto" ∧
    (∀ mt ctx, "mode" ∉ (generateRequestBody mt ctx).map Prod.fst) ∧
    (∀ (content : String) (env : ApiEnv),
        (handleSendMessage (SendData.text content) env).generateCalls = 1) := by
  refine ⟨?_, ?_, rfl, ?_, ?_⟩
  · intro req classifyHeavy p m hm hd
    by_cases hs : req.source_text = ""
    · simp [decideMode, hs] at hd
    · rcases hm with hm | hm <;>
        · simp only [decideMode, hs, if_false, hm, Except.ok.injEq,
            Prod.mk.injEq] at hd
          exact hd.1.symm
  · intro req classifyHeavy hm
    by_cases hs : req.source_text = ""
    · simp [runRequest, decideMode, hs]
    · rcases hm with hm | hm <;>
        simp [runRequest, decideMode, hs, hm, callsForPath]
  · intro mt ctx
    simp [generateRequestBody]
  · intro content env
    obtain ⟨genR, renR, imgR⟩ := env
    cases genR with
    | error e => rfl
    | ok g =>
      by_cases hg : g.success
      · cases renR with
        | error e => simp [handleSendMessage, runTextPath, hg, catchErrorRun]
        | ok r =>
          by_cases hr : r.success
          · simp [handleSendMessage, runTextPath, hg, hr, finishOk]
          · simp [handleSendMessage, runTextPath, hg, hr, catchErrorRun]
      · simp [handleSendMessage, runTextPath, hg, catchErrorRun]

/-- Witness for C6 at a concrete explain request and a concrete text
run. -/
theorem explain_answer_always_light_path_witness :
    PathKind.light = PathKind.light ∧
    CollabCall.renderEngine ∉
      (runRequest
        { source_text := "explain x", context := none,
          mode := Mode.explain } (fun _ => true)).2 ∧
    (handleSendMessage (SendData.text "x")
      { genR := Except.error "down",
        renR := Except.ok { success := true },
        imgR := Except.ok { success := true } }).generateCalls = 1 :=
  ⟨explain_answer_always_light_path.1
      { source_text := "explain x", context := none, mode := Mode.explain }
      (fun _ => true) PathKind.light Mode.explain (Or.inl rfl) rfl,
    explain_answer_always_light_path.2.1
      { source_text := "explain x", context := none, mode := Mode.explain }
      (fun _ => true) (Or.inl rfl),
    explain_answer_always_light_path.2.2.2.2 "x"
      { genR := Except.error "down",
        renR := Except.ok { success := true },
        imgR := Except.ok { success := true } }⟩

/-- C7: an artifact stored via store stays resolvable via resolve at
every later point of any operation sequence in which it is neither
explicitly swept nor past the maximum age used by a sweep. -/
theorem store_resolve_roundtrip (st : StoreState) (p : String) (now : Nat)
    (ops : List StoreOp) (hwf : StoreWF st)
    (hk : ∀ op ∈ ops, opKeeps (storeArtifact st p now).2 op) :
    resolveArtifact (applyStoreOps (storeArtifact st p now).1 ops)
        (storeArtifact st p now).2.id
      = some (storeArtifact st p now).2.file_path := by
  obtain ⟨hwf1, hmem1⟩ := storeArtifact_preserves st p now hwf
  obtain ⟨hwf2, hmem2⟩ :=
    applyStoreOps_preserves ops (storeArtifact st p now).1
      (storeArtifact st p now).2 hwf1 hmem1 hk
  exact resolve_of_mem _ _ hwf2 hmem2

/-- Witness for C7: store into the empty store at time 5, then another
store at time 6 and a sweep with max age 10 at time 7; the artifact is
still resolved to its managed path. -/
theorem store_resolve_roundtrip_witness :
    resolveArtifact
        (applyStoreOps
          (storeArtifact { artifacts := [], nextId := 0 } "tmp/video.mp4" 5).1
          [StoreOp.storeOp "tmp/other.mp4" 6, StoreOp.sweepOp 10 7])
        (storeArtifact { artifacts := [], nextId := 0 } "tmp/video.mp4" 5).2.id
      = some (storeArtifact { artifacts := [], nextId := 0 }
          "tmp/video.mp4" 5).2.file_path :=
  store_resolve_roundtrip { artifacts := [], nextId := 0 } "tmp/video.mp4" 5
    [StoreOp.storeOp "tmp/other.mp4" 6, StoreOp.sweepOp 10 7]
    ⟨by simp, by simp⟩ (by decide)

/-- C8: on every exit path of a render attempt the working directory is
removed, exactly once and as the last side effect, after any produced
artifact has been relocated into the managed store location; a produced
artifact always ends up at the managed location, never in the working
directory. -/
theorem working_directory_always_cleaned (artifactId : Nat)
    (exit : RenderExit) :
    (renderScene artifactId exit).events.getLast?
        = some RenderEvent.removeWorkingDir ∧
    RenderEvent.removeWorkingDir ∉
      (renderScene artifactId exit).events.dropLast ∧
    ∀ t, (renderScene artifactId exit).artifactTarget = some t →
      t = managedPath artifactId ∧
      RenderEvent.relocateArtifact t ∈
        (renderScene artifactId exit).events.dropLast := by
  cases exit with
  | finished outputPresent =>
    cases outputPresent with
    | true =>
      refine ⟨rfl, by simp [renderScene, renderBodyOutcome], ?_⟩
      intro t ht
      cases Option.some.inj ht
      exact ⟨rfl, by simp [renderScene, renderBodyOutcome]⟩
    | false =>
      refine ⟨rfl, by simp [renderScene, renderBodyOutcome], ?_⟩
      intro t ht
      cases ht
  | nonzeroExit stderr =>
    refine ⟨rfl, by simp [renderScene, renderBodyOutcome], ?_⟩
    intro t ht
    cases ht
  | timedOut =>
    refine ⟨rfl, by simp [renderScene, renderBodyOutcome], ?_⟩
    intro t ht
    cases ht
  | crashed =>
    refine ⟨rfl, by simp [renderScene, renderBodyOutcome], ?_⟩
    intro t ht
    cases ht

/-- Witness for C8 at a successful render with output present. -/
theorem working_directory_always_cleaned_witness :
    (renderScene 7 (RenderExit.finished true)).events.getLast?
        = some RenderEvent.removeWorkingDir ∧
    managedPath 7 = managedPath 7 ∧
    RenderEvent.relocateArtifact (managedPath 7) ∈
      (renderScene 7 (RenderExit.finished true)).events.dropLast :=
  ⟨(working_directory_always_cleaned 7 (RenderExit.finished true)).1,
    ((working_directory_always_cleaned 7 (RenderExit.finished true)).2.2
      (managedPath 7) rfl).1,
    ((working_directory_always_cleaned 7 (RenderExit.finished true)).2.2
      (managedPath 7) rfl).2⟩

/-- C10: the collapsed CodeViewer truncates exactly when the code has
more than 10 newline-separated lines, in which case it displays
precisely the first 10 lines and the expand button reports exactly the
total minus 10 remaining lines; for 10 lines or fewer the full code is
shown and no expand button is rendered. -/
theorem codeviewer_truncation_boundary (code : List Char) :
    (10 < (splitNl code).length →
        displayedCode code false = truncatedCode code ∧
        splitNl (displayedCode code false) = (splitNl code).take 10 ∧
        expandButtonShown code = true ∧
        showMoreCount code + 10 = (splitNl code).length) ∧
    ((splitNl code).length ≤ 10 →
        displayedCode code false = code ∧ expandButtonShown code = false) := by
  constructor
  · intro h
    have hst : shouldTruncate code = true := decide_eq_true h
    have hdisp : displayedCode code false = truncatedCode code := by
      simp [displayedCode, hst]
    refine ⟨hdisp, ?_, hst, Nat.sub_add_cancel (Nat.le_of_lt h)⟩
    rw [hdisp]
    unfold truncatedCode
    apply splitNl_joinNl
    · simp [splitNl]
    · intro l hl
      exact no_newline_of_mem_splitNl code l
        (List.take_subset 10 (splitNl code) hl)
  · intro h
    have hst : shouldTruncate code = false :=
      decide_eq_false (Nat.not_lt.mpr h)
    exact ⟨by simp [displayedCode, hst], hst⟩

/-- Witness for C10 at a concrete 12-line code string. -/
theorem codeviewer_truncation_boundary_witness :
    displayedCode "a\nb\nc\nd\ne\nf\ng\nh\ni\nj\nk\nl".toList false
        = truncatedCode "a\nb\nc\nd\ne\nf\ng\nh\ni\nj\nk\nl".toList ∧
    splitNl (displayedCode "a\nb\nc\nd\ne\nf\ng\nh\ni\nj\nk\nl".toList false)
        = (splitNl "a\nb\nc\nd\ne\nf\ng\nh\ni\nj\nk\nl".toList).take 10 ∧
    expandButtonShown "a\nb\nc\nd\ne\nf\ng\nh\ni\nj\nk\nl".toList = true ∧
    showMoreCount "a\nb\nc\nd\ne\nf\ng\nh\ni\nj\nk\nl".toList + 10
        = (splitNl "a\nb\nc\nd\ne\nf\ng\nh\ni\nj\nk\nl".toList).length :=
  (codeviewer_truncation_boundary
    "a\nb\nc\nd\ne\nf\ng\nh\ni\nj\nk\nl".toList).1 (by decide)

/-- Witness for C4 at a concrete failed render with extracted text. -/
theorem render_failure_best_result_surfaced_witness :
    (runImagePath (Except.ok
      { success := false, message := "Rendering failed",
        math_text := "x^2 + 5x + 6 = 0",
        render_error := "manim exited with code 1" })).messages.filter
        (fun m => m.role == "assistant")
      = [fallbackResultMessage "x^2 + 5x + 6 = 0"
          (jsOr "manim exited with code 1" "Rendering failed")] :=
  (render_failure_best_result_surfaced
    { success := false, message := "Rendering failed",
      math_text := "x^2 + 5x + 6 = 0",
      render_error := "manim exited with code 1" }
    rfl (by decide)).2.1

end MathAI
